import Mathlib

/-!
Shallow embedding of `src/contacts.rs` from the `resend-rs` repository:
the contacts resource client (data model, serde-style JSON encoding and
decoding, and the five operations `create`, `get`, `update`, `delete`,
`list` over an abstract request dispatcher), together with theorems
settling the frozen claims about it.
-/

namespace Resend

/-- A JSON value, as produced by serde serialization and consumed by serde
deserialization.  Objects keep their fields as an ordered association list,
matching the textual order of a JSON document. -/
inductive Json where
  | null : Json
  | bool (b : Bool) : Json
  | num (n : Int) : Json
  | str (s : String) : Json
  | arr (elems : List Json) : Json
  | obj (fields : List (String × Json)) : Json

/-- Modelled from the spec: the shared error type (`crate::Result`); errors are
raised by the dispatcher on transport failure or a non-2xx status, and by
response-body decoding on a JSON shape mismatch. -/
inductive Error where
  | transport (msg : String) : Error
  | http (status : Nat) : Error
  | decode (msg : String) : Error
deriving DecidableEq

inductive Method where
  | GET : Method
  | POST : Method
  | PATCH : Method
  | DELETE : Method
deriving DecidableEq

/-- A built request: the HTTP method, the path handed to `Config::build`, and
the serialized JSON body attached via `.json(&...)` (none when no body is
attached). -/
structure Request where
  method : Method
  path : String
  body : Option Json

/-- Modelled from the spec: the shared configuration/dispatcher
(`crate::Config`, not under `src/`).  `send` either fails (transport failure or
non-2xx status) or yields a response body; `some j` is a body parsing as the
JSON value `j`, `none` a body that is not valid JSON. -/
structure Config where
  send : Request → Except Error (Option Json)

/-- `ContactsService(pub(crate) Arc<Config>)`. -/
structure ContactsService where
  config : Config

/-- `ContactId(EcoString)`: unique contact identifier wrapping a string. -/
structure ContactId where
  val : String
deriving DecidableEq

/-- `ContactId::new`. -/
def ContactId.new (id : String) : ContactId := ⟨id⟩

/-- `impl AsRef<str> for ContactId`. -/
def ContactId.as_ref (c : ContactId) : String := c.val

/-- Modelled from the spec: `AudienceId` lives in the audiences module, which
is not part of this source tree; per the spec it is an opaque string
identifier, and its display form (used by `format!` in path building) is the
wrapped string. -/
structure AudienceId where
  val : String
deriving DecidableEq

/-- `ContactData`: details of a new contact. -/
structure ContactData where
  email : String
  first_name : Option String
  last_name : Option String
  unsubscribed : Option Bool
deriving DecidableEq

/-- `ContactData::new`. -/
def ContactData.new (email : String) : ContactData :=
  { email := email, first_name := none, last_name := none, unsubscribed := none }

/-- `ContactData::with_first_name`. -/
def ContactData.with_first_name (d : ContactData) (name : String) : ContactData :=
  { d with first_name := some name }

/-- `ContactData::with_last_name`. -/
def ContactData.with_last_name (d : ContactData) (name : String) : ContactData :=
  { d with last_name := some name }

/-- `ContactData::with_unsubscribed`. -/
def ContactData.with_unsubscribed (d : ContactData) (unsubscribed : Bool) : ContactData :=
  { d with unsubscribed := some unsubscribed }

/-- `Contact`: details of an existing contact (read model). -/
structure Contact where
  id : ContactId
  email : String
  first_name : String
  last_name : String
  unsubscribed : Bool
  created_at : String
deriving DecidableEq

/-- `ContactChanges`: list of changes to apply to a contact. -/
structure ContactChanges where
  email : Option String
  first_name : Option String
  last_name : Option String
  unsubscribed : Option Bool
deriving DecidableEq

/-- `ContactChanges::new`, via `derive(Default)`: every field `None`. -/
def ContactChanges.new : ContactChanges :=
  { email := none, first_name := none, last_name := none, unsubscribed := none }

/-- `ContactChanges::with_email`. -/
def ContactChanges.with_email (c : ContactChanges) (email : String) : ContactChanges :=
  { c with email := some email }

/-- `ContactChanges::with_first_name`. -/
def ContactChanges.with_first_name (c : ContactChanges) (name : String) : ContactChanges :=
  { c with first_name := some name }

/-- `ContactChanges::with_last_name`. -/
def ContactChanges.with_last_name (c : ContactChanges) (name : String) : ContactChanges :=
  { c with last_name := some name }

/-- `ContactChanges::with_unsubscribed`. -/
def ContactChanges.with_unsubscribed (c : ContactChanges) (unsubscribed : Bool) : ContactChanges :=
  { c with unsubscribed := some unsubscribed }

/-- Serde `derive(Serialize)` on `ContactData`: fields in declaration order,
each optional field annotated `skip_serializing_if = Option::is_none` and so
omitted entirely when `None`. -/
def ContactData.toJson (d : ContactData) : Json :=
  .obj ([("email", .str d.email)]
    ++ (match d.first_name with | some s => [("first_name", .str s)] | none => [])
    ++ (match d.last_name with | some s => [("last_name", .str s)] | none => [])
    ++ (match d.unsubscribed with | some b => [("unsubscribed", .bool b)] | none => []))

/-- Serde `derive(Serialize)` on `ContactChanges`: all four fields optional,
each omitted entirely when `None`. -/
def ContactChanges.toJson (c : ContactChanges) : Json :=
  .obj ((match c.email with | some s => [("email", .str s)] | none => [])
    ++ (match c.first_name with | some s => [("first_name", .str s)] | none => [])
    ++ (match c.last_name with | some s => [("last_name", .str s)] | none => [])
    ++ (match c.unsubscribed with | some b => [("unsubscribed", .bool b)] | none => []))

/-- First occurrence of a key in a JSON object's field list.  This is an
observation function used to state properties of objects; it is not the
decoder (serde's derived impls reject duplicate known keys, see the
`visit_map` folds below). -/
def lookupField (fields : List (String × Json)) (key : String) : Option Json :=
  (fields.find? (fun kv => kv.1 == key)).map (fun kv => kv.2)

/-- Serde's generated `visit_map` for a struct with a single required string
field `key` (the shape of `CreateContactResponse` and
`UpdateContactResponse`): entries are scanned in order; a second occurrence of
`key` is a `duplicate_field` error, a non-string value an invalid-type error,
unknown keys are ignored, and a `key` never seen is a `missing_field` error at
the end. -/
def visitSingleString (key : String) :
    List (String × Json) → Option String → Except Error String
  | [], none => .error (.decode ("missing field " ++ key))
  | [], some s => .ok s
  | (k, v) :: rest, acc =>
    if k == key then
      match acc, v with
      | some _, _ => .error (.decode ("duplicate field " ++ key))
      | none, .str s => visitSingleString key rest (some s)
      | none, _ => .error (.decode ("invalid type for field " ++ key))
    else visitSingleString key rest acc

/-- The field slots of serde's generated `visit_map` for `Contact`: one
`Option` per field, filled as entries are scanned. -/
structure ContactSlots where
  id : Option String
  email : Option String
  first_name : Option String
  last_name : Option String
  unsubscribed : Option Bool
  created_at : Option String

/-- One iteration of serde's generated `visit_map` loop for `Contact`: a
second occurrence of a known field is a `duplicate_field` error, a wrongly
typed value an invalid-type error, and an unknown key is ignored. -/
def Contact.visitEntry (slots : ContactSlots) (k : String) (v : Json) :
    Except Error ContactSlots :=
  if k == "id" then
    match slots.id, v with
    | some _, _ => .error (.decode "duplicate field id")
    | none, .str s => .ok { slots with id := some s }
    | none, _ => .error (.decode "invalid type for field id")
  else if k == "email" then
    match slots.email, v with
    | some _, _ => .error (.decode "duplicate field email")
    | none, .str s => .ok { slots with email := some s }
    | none, _ => .error (.decode "invalid type for field email")
  else if k == "first_name" then
    match slots.first_name, v with
    | some _, _ => .error (.decode "duplicate field first_name")
    | none, .str s => .ok { slots with first_name := some s }
    | none, _ => .error (.decode "invalid type for field first_name")
  else if k == "last_name" then
    match slots.last_name, v with
    | some _, _ => .error (.decode "duplicate field last_name")
    | none, .str s => .ok { slots with last_name := some s }
    | none, _ => .error (.decode "invalid type for field last_name")
  else if k == "unsubscribed" then
    match slots.unsubscribed, v with
    | some _, _ => .error (.decode "duplicate field unsubscribed")
    | none, .bool b => .ok { slots with unsubscribed := some b }
    | none, _ => .error (.decode "invalid type for field unsubscribed")
  else if k == "created_at" then
    match slots.created_at, v with
    | some _, _ => .error (.decode "duplicate field created_at")
    | none, .str s => .ok { slots with created_at := some s }
    | none, _ => .error (.decode "invalid type for field created_at")
  else
    .ok slots

/-- End of serde's generated `visit_map` for `Contact`: every slot still
unfilled is a `missing_field` error, otherwise the struct is built. -/
def Contact.finish (slots : ContactSlots) : Except Error Contact :=
  match slots.id with
  | none => .error (.decode "missing field id")
  | some id =>
    match slots.email with
    | none => .error (.decode "missing field email")
    | some email =>
      match slots.first_name with
      | none => .error (.decode "missing field first_name")
      | some first_name =>
        match slots.last_name with
        | none => .error (.decode "missing field last_name")
        | some last_name =>
          match slots.unsubscribed with
          | none => .error (.decode "missing field unsubscribed")
          | some unsubscribed =>
            match slots.created_at with
            | none => .error (.decode "missing field created_at")
            | some created_at =>
              .ok ⟨⟨id⟩, email, first_name, last_name, unsubscribed, created_at⟩

/-- Serde's generated `visit_map` for `Contact`: fold `Contact.visitEntry`
over the entries in order, then apply the `Contact.finish` missing-field
checks. -/
def Contact.visitMap : List (String × Json) → ContactSlots → Except Error Contact
  | [], slots => Contact.finish slots
  | (k, v) :: rest, slots =>
    match Contact.visitEntry slots k v with
    | .error e => .error e
    | .ok updated => Contact.visitMap rest updated

/-- Serde `derive(Deserialize)` on `Contact`: an object whose entries are run
through the generated `visit_map`, all six fields required at their declared
types. -/
def Contact.fromJson (j : Json) : Except Error Contact :=
  match j with
  | .obj fields => Contact.visitMap fields ⟨none, none, none, none, none, none⟩
  | _ => .error (.decode "invalid type: expected an object")

/-- `CreateContactResponse`: `{ "id": string }`. -/
structure CreateContactResponse where
  id : ContactId
deriving DecidableEq

/-- Serde `derive(Deserialize)` on `CreateContactResponse`: the single
required `id` field is a `ContactId`, a newtype over a string; decoded by the
generated `visit_map` (duplicate `id` keys are an error). -/
def CreateContactResponse.fromJson (j : Json) : Except Error CreateContactResponse :=
  match j with
  | .obj fields =>
    match visitSingleString "id" fields none with
    | .error e => .error e
    | .ok s => .ok ⟨⟨s⟩⟩
  | _ => .error (.decode "invalid type: expected an object")

/-- `UpdateContactResponse`: `{ "id": string }`. -/
structure UpdateContactResponse where
  id : ContactId
deriving DecidableEq

/-- Serde `derive(Deserialize)` on `UpdateContactResponse`: same shape as
`CreateContactResponse`. -/
def UpdateContactResponse.fromJson (j : Json) : Except Error UpdateContactResponse :=
  match j with
  | .obj fields =>
    match visitSingleString "id" fields none with
    | .error e => .error e
    | .ok s => .ok ⟨⟨s⟩⟩
  | _ => .error (.decode "invalid type: expected an object")

/-- `ListContactResponse`: `{ "data": [Contact, ...] }`. -/
structure ListContactResponse where
  data : List Contact
deriving DecidableEq

/-- One iteration of serde's generated `visit_map` loop for
`ListContactResponse`: a second `data` key is a `duplicate_field` error, a
non-array value or a failing element an error, and an unknown key is
ignored; the `data` array's elements each deserialize as a `Contact`, in
order. -/
def ListContactResponse.visitEntry (acc : Option (List Contact)) (k : String)
    (v : Json) : Except Error (Option (List Contact)) :=
  if k == "data" then
    match acc, v with
    | some _, _ => .error (.decode "duplicate field data")
    | none, .arr elems =>
      match elems.mapM Contact.fromJson with
      | .error e => .error e
      | .ok data => .ok (some data)
    | none, _ => .error (.decode "invalid type for field data")
  else .ok acc

/-- Serde's generated `visit_map` for `ListContactResponse`: fold
`ListContactResponse.visitEntry` over the entries in order; a `data` field
never seen is a `missing_field` error at the end. -/
def ListContactResponse.visitMap :
    List (String × Json) → Option (List Contact) → Except Error ListContactResponse
  | [], none => .error (.decode "missing field data")
  | [], some data => .ok ⟨data⟩
  | (k, v) :: rest, acc =>
    match ListContactResponse.visitEntry acc k v with
    | .error e => .error e
    | .ok updated => ListContactResponse.visitMap rest updated

/-- Serde `derive(Deserialize)` on `ListContactResponse`. -/
def ListContactResponse.fromJson (j : Json) : Except Error ListContactResponse :=
  match j with
  | .obj fields => ListContactResponse.visitMap fields none
  | _ => .error (.decode "invalid type: expected an object")

/-- `Response::json::<T>()`: parse the body text as JSON, then deserialize;
a body that is not valid JSON (modelled as `none`) is a decode error. -/
def readJson {α : Type} (body : Option Json) (dec : Json → Except Error α) :
    Except Error α :=
  match body with
  | none => .error (.decode "error decoding response body")
  | some j => dec j

/-- The request built by `create`: `format!("/audiences/{audience}/contacts")`
with `Method::POST` and the `ContactData` attached as JSON body. -/
def createRequest (audience : AudienceId) (contact : ContactData) : Request :=
  { method := .POST
    path := "/audiences/" ++ audience.val ++ "/contacts"
    body := some contact.toJson }

/-- `ContactsService::create`. -/
def ContactsService.create (svc : ContactsService) (audience : AudienceId)
    (contact : ContactData) : Except Error ContactId :=
  match svc.config.send (createRequest audience contact) with
  | .error e => .error e
  | .ok response =>
    match readJson response CreateContactResponse.fromJson with
    | .error e => .error e
    | .ok content => .ok content.id

/-- The request built by `get`:
`format!("/audiences/{audience}/contacts/{contact}")` with `Method::GET`. -/
def getRequest (contact : ContactId) (audience : AudienceId) : Request :=
  { method := .GET
    path := "/audiences/" ++ audience.val ++ "/contacts/" ++ contact.val
    body := none }

/-- `ContactsService::get`. -/
def ContactsService.get (svc : ContactsService) (contact : ContactId)
    (audience : AudienceId) : Except Error Contact :=
  match svc.config.send (getRequest contact audience) with
  | .error e => .error e
  | .ok response =>
    match readJson response Contact.fromJson with
    | .error e => .error e
    | .ok content => .ok content

/-- The request built by `update`:
`format!("/audiences/{audience}/contacts/{contact}")` with `Method::PATCH` and
the `ContactChanges` attached as JSON body. -/
def updateRequest (contact : ContactId) (audience : AudienceId)
    (update : ContactChanges) : Request :=
  { method := .PATCH
    path := "/audiences/" ++ audience.val ++ "/contacts/" ++ contact.val
    body := some update.toJson }

/-- `ContactsService::update`: the response is decoded as
`UpdateContactResponse` (binding `_content`, discarded) and `Ok(())` is
returned. -/
def ContactsService.update (svc : ContactsService) (contact : ContactId)
    (audience : AudienceId) (update : ContactChanges) : Except Error Unit :=
  match svc.config.send (updateRequest contact audience update) with
  | .error e => .error e
  | .ok response =>
    match readJson response UpdateContactResponse.fromJson with
    | .error e => .error e
    | .ok _content => .ok ()

/-- The trait bound `T: AsRef<str>` of `delete`. -/
class AsRefStr (α : Type) where
  as_ref : α → String

instance : AsRefStr ContactId := ⟨ContactId.as_ref⟩

instance : AsRefStr String := ⟨fun s => s⟩

/-- The request built by `delete`:
`format!("/audiences/{audience}/contacts/{email_or_id}")` with
`Method::DELETE` and no body. -/
def deleteRequest (audience : AudienceId) (email_or_id : String) : Request :=
  { method := .DELETE
    path := "/audiences/" ++ audience.val ++ "/contacts/" ++ email_or_id
    body := none }

/-- `ContactsService::delete`: generic over `T: AsRef<str>`; the response is
bound as `_response` and never decoded. -/
def ContactsService.delete {T : Type} [AsRefStr T] (svc : ContactsService)
    (audience : AudienceId) (email_or_id : T) : Except Error Unit :=
  match svc.config.send (deleteRequest audience (AsRefStr.as_ref email_or_id)) with
  | .error e => .error e
  | .ok _response => .ok ()

/-- The request built by `list`: `format!("/audiences/{audience}/contacts")`
with `Method::GET`. -/
def listRequest (audience : AudienceId) : Request :=
  { method := .GET
    path := "/audiences/" ++ audience.val ++ "/contacts"
    body := none }

/-- `ContactsService::list`: returns `content.data`. -/
def ContactsService.list (svc : ContactsService) (audience : AudienceId) :
    Except Error (List Contact) :=
  match svc.config.send (listRequest audience) with
  | .error e => .error e
  | .ok response =>
    match readJson response ListContactResponse.fromJson with
    | .error e => .error e
    | .ok content => .ok content.data

/-- Whether a serialized JSON object carries the given key. -/
def Json.hasKey (j : Json) (key : String) : Bool :=
  match j with
  | .obj fields => fields.any (fun kv => kv.1 == key)
  | _ => false

theorem lookupField_cons (k : String) (v : Json) (rest : List (String × Json))
    (key : String) :
    lookupField ((k, v) :: rest) key = if k == key then some v else lookupField rest key := by
  cases hk : (k == key) <;> simp [lookupField, List.find?, hk]

theorem visitSingleString_no_key (key : String) (fields : List (String × Json)) :
    fields.filter (fun kv => kv.1 == key) = [] →
    ∀ s : String, visitSingleString key fields (some s) = .ok s := by
  induction fields with
  | nil => intro _ s; rfl
  | cons kv rest ih =>
    obtain ⟨k, v⟩ := kv
    intro h s
    by_cases hk : (k == key) = true
    · simp [List.filter_cons, hk] at h
    · simp only [visitSingleString]
      rw [if_neg hk]
      exact ih (by simpa [List.filter_cons, hk] using h) s

theorem visitSingleString_unique (key : String) (fields : List (String × Json))
    (s : String) :
    fields.filter (fun kv => kv.1 == key) = [(key, .str s)] →
    visitSingleString key fields none = .ok s := by
  induction fields with
  | nil => intro h; simp at h
  | cons kv rest ih =>
    obtain ⟨k, v⟩ := kv
    intro h
    by_cases hk : (k == key) = true
    · have h2 : (k = key ∧ v = Json.str s)
          ∧ rest.filter (fun kv => kv.1 == key) = [] := by
        simpa [List.filter_cons, hk] using h
      obtain ⟨⟨_, hveq⟩, hrest⟩ := h2
      subst hveq
      simp only [visitSingleString]
      rw [if_pos hk]
      exact visitSingleString_no_key key rest hrest s
    · simp only [visitSingleString]
      rw [if_neg hk]
      exact ih (by simpa [List.filter_cons, hk] using h)

theorem visitSingleString_no_string (key : String) (fields : List (String × Json)) :
    (∀ s : String, lookupField fields key ≠ some (.str s)) →
    ∃ msg, visitSingleString key fields none = .error (.decode msg) := by
  induction fields with
  | nil => intro _; exact ⟨_, rfl⟩
  | cons kv rest ih =>
    obtain ⟨k, v⟩ := kv
    intro h
    by_cases hk : (k == key) = true
    · have hv : ∀ s : String, v ≠ .str s := by
        intro s hs
        exact h s (by rw [lookupField_cons, if_pos hk, hs])
      simp only [visitSingleString]
      rw [if_pos hk]
      cases v with
      | str s => exact absurd rfl (hv s)
      | null => exact ⟨_, rfl⟩
      | bool b => exact ⟨_, rfl⟩
      | num n => exact ⟨_, rfl⟩
      | arr es => exact ⟨_, rfl⟩
      | obj fs => exact ⟨_, rfl⟩
    · simp only [visitSingleString]
      rw [if_neg hk]
      apply ih
      intro s hs
      exact h s (by rw [lookupField_cons, if_neg hk]; exact hs)

theorem listVisitMap_no_key (rest : List (String × Json)) :
    rest.filter (fun kv => kv.1 == "data") = [] →
    ∀ data : List Contact, ListContactResponse.visitMap rest (some data) = .ok ⟨data⟩ := by
  induction rest with
  | nil => intro _ data; rfl
  | cons kv r ih =>
    obtain ⟨k, v⟩ := kv
    intro h data
    by_cases hk : (k == "data") = true
    · simp [List.filter_cons, hk] at h
    · simp only [ListContactResponse.visitMap]
      have he : ListContactResponse.visitEntry (some data) k v = .ok (some data) := by
        unfold ListContactResponse.visitEntry
        rw [if_neg hk]
      rw [he]
      exact ih (by simpa [List.filter_cons, hk] using h) data

theorem listVisitMap_unique (fields : List (String × Json)) (elems : List Json) :
    fields.filter (fun kv => kv.1 == "data") = [("data", .arr elems)] →
    ListContactResponse.visitMap fields none =
      match elems.mapM Contact.fromJson with
      | .error e => .error e
      | .ok data => .ok ⟨data⟩ := by
  induction fields with
  | nil => intro h; simp at h
  | cons kv rest ih =>
    obtain ⟨k, v⟩ := kv
    intro h
    by_cases hk : (k == "data") = true
    · have h2 : (k = "data" ∧ v = Json.arr elems)
          ∧ rest.filter (fun kv => kv.1 == "data") = [] := by
        simpa [List.filter_cons, hk] using h
      obtain ⟨⟨hkeq, hveq⟩, hrest⟩ := h2
      subst hkeq
      subst hveq
      simp only [ListContactResponse.visitMap]
      have he : ListContactResponse.visitEntry none "data" (.arr elems) =
          match elems.mapM Contact.fromJson with
          | .error e => .error e
          | .ok data => .ok (some data) := rfl
      rw [he]
      cases hm : elems.mapM Contact.fromJson with
      | error e => rfl
      | ok data => exact listVisitMap_no_key rest hrest data
    · simp only [ListContactResponse.visitMap]
      have he : ListContactResponse.visitEntry none k v = .ok none := by
        unfold ListContactResponse.visitEntry
        rw [if_neg hk]
      rw [he]
      exact ih (by simpa [List.filter_cons, hk] using h)

/-- C1: Serializing a `ContactData` or a `ContactChanges` to JSON emits a key
for an optional field exactly when that field is set, absent fields being
omitted entirely; `ContactData::new(email)` serializes to an object whose only
key is `email`, and `ContactChanges::new()` serializes to the empty JSON
object. -/
theorem serialize_omits_absent_optional_fields :
    (∀ d : ContactData,
        d.toJson.hasKey "email" = true
      ∧ d.toJson.hasKey "first_name" = d.first_name.isSome
      ∧ d.toJson.hasKey "last_name" = d.last_name.isSome
      ∧ d.toJson.hasKey "unsubscribed" = d.unsubscribed.isSome)
  ∧ (∀ c : ContactChanges,
        c.toJson.hasKey "email" = c.email.isSome
      ∧ c.toJson.hasKey "first_name" = c.first_name.isSome
      ∧ c.toJson.hasKey "last_name" = c.last_name.isSome
      ∧ c.toJson.hasKey "unsubscribed" = c.unsubscribed.isSome)
  ∧ (∀ email : String, (ContactData.new email).toJson = .obj [("email", .str email)])
  ∧ ContactChanges.new.toJson = .obj [] := by
  refine ⟨?_, ?_, fun email => rfl, rfl⟩
  · rintro ⟨e, fn, ln, u⟩
    cases fn <;> cases ln <;> cases u <;> exact ⟨rfl, rfl, rfl, rfl⟩
  · rintro ⟨em, fn, ln, u⟩
    cases em <;> cases fn <;> cases ln <;> cases u <;> exact ⟨rfl, rfl, rfl, rfl⟩

/-- C4: Every builder mutator on `ContactData` and `ContactChanges` is
last-write-wins (applying it twice keeps only the second argument) and leaves
every other field of the value unchanged; each call is a pure value
transformation. -/
theorem builder_mutators_last_write_wins :
    (∀ (d : ContactData) (x y : String),
        (d.with_first_name x).with_first_name y = d.with_first_name y
      ∧ (d.with_last_name x).with_last_name y = d.with_last_name y)
  ∧ (∀ (d : ContactData) (x y : Bool),
        (d.with_unsubscribed x).with_unsubscribed y = d.with_unsubscribed y)
  ∧ (∀ (d : ContactData) (x : String),
        (d.with_first_name x).email = d.email
      ∧ (d.with_first_name x).last_name = d.last_name
      ∧ (d.with_first_name x).unsubscribed = d.unsubscribed
      ∧ (d.with_last_name x).email = d.email
      ∧ (d.with_last_name x).first_name = d.first_name
      ∧ (d.with_last_name x).unsubscribed = d.unsubscribed)
  ∧ (∀ (d : ContactData) (x : Bool),
        (d.with_unsubscribed x).email = d.email
      ∧ (d.with_unsubscribed x).first_name = d.first_name
      ∧ (d.with_unsubscribed x).last_name = d.last_name)
  ∧ (∀ (c : ContactChanges) (x y : String),
        (c.with_email x).with_email y = c.with_email y
      ∧ (c.with_first_name x).with_first_name y = c.with_first_name y
      ∧ (c.with_last_name x).with_last_name y = c.with_last_name y)
  ∧ (∀ (c : ContactChanges) (x y : Bool),
        (c.with_unsubscribed x).with_unsubscribed y = c.with_unsubscribed y)
  ∧ (∀ (c : ContactChanges) (x : String),
        (c.with_email x).first_name = c.first_name
      ∧ (c.with_email x).last_name = c.last_name
      ∧ (c.with_email x).unsubscribed = c.unsubscribed
      ∧ (c.with_first_name x).email = c.email
      ∧ (c.with_first_name x).last_name = c.last_name
      ∧ (c.with_first_name x).unsubscribed = c.unsubscribed
      ∧ (c.with_last_name x).email = c.email
      ∧ (c.with_last_name x).first_name = c.first_name
      ∧ (c.with_last_name x).unsubscribed = c.unsubscribed)
  ∧ (∀ (c : ContactChanges) (x : Bool),
        (c.with_unsubscribed x).email = c.email
      ∧ (c.with_unsubscribed x).first_name = c.first_name
      ∧ (c.with_unsubscribed x).last_name = c.last_name) :=
  ⟨fun _ _ _ => ⟨rfl, rfl⟩, fun _ _ _ => rfl,
    fun _ _ => ⟨rfl, rfl, rfl, rfl, rfl, rfl⟩, fun _ _ => ⟨rfl, rfl, rfl⟩,
    fun _ _ _ => ⟨rfl, rfl, rfl⟩, fun _ _ _ => rfl,
    fun _ _ => ⟨rfl, rfl, rfl, rfl, rfl, rfl, rfl, rfl, rfl⟩,
    fun _ _ => ⟨rfl, rfl, rfl⟩⟩

/-- C10: Request paths are built by raw string interpolation of the
identifiers' string forms, with no percent-encoding, escaping, or validation;
an identifier containing a slash is embedded verbatim, so a delete identifier
containing "/contacts" yields the very path that lists a different
audience. -/
theorem request_paths_are_raw_interpolation :
    (∀ (a : AudienceId) (d : ContactData),
        (createRequest a d).path = "/audiences/" ++ a.val ++ "/contacts")
  ∧ (∀ (c : ContactId) (a : AudienceId),
        (getRequest c a).path = "/audiences/" ++ a.val ++ "/contacts/" ++ c.val)
  ∧ (∀ (c : ContactId) (a : AudienceId) (ch : ContactChanges),
        (updateRequest c a ch).path = "/audiences/" ++ a.val ++ "/contacts/" ++ c.val)
  ∧ (∀ (a : AudienceId) (x : String),
        (deleteRequest a x).path = "/audiences/" ++ a.val ++ "/contacts/" ++ x)
  ∧ (∀ a : AudienceId, (listRequest a).path = "/audiences/" ++ a.val ++ "/contacts")
  ∧ (deleteRequest ⟨"aud"⟩ "x/contacts").path = (listRequest ⟨"aud/contacts/x"⟩).path := by
  refine ⟨fun _ _ => rfl, fun _ _ => rfl, fun _ _ _ => rfl, fun _ _ => rfl,
    fun _ => rfl, ?_⟩
  decide

/-- C2: Each of the five operations returns an error exactly when the
dispatcher's send fails (transport failure or non-2xx response) or when
decoding the response body fails, and the error value reaching the caller is
that very error, unchanged; there is no retry, fallback value, or partial
result. -/
theorem operations_propagate_errors_unchanged (svc : ContactsService)
    (a : AudienceId) (c : ContactId) (d : ContactData) (ch : ContactChanges)
    (x : String) (e : Error) :
    (svc.create a d = .error e ↔
      svc.config.send (createRequest a d) = .error e
      ∨ ∃ r, svc.config.send (createRequest a d) = .ok r
          ∧ readJson r CreateContactResponse.fromJson = .error e)
  ∧ (svc.get c a = .error e ↔
      svc.config.send (getRequest c a) = .error e
      ∨ ∃ r, svc.config.send (getRequest c a) = .ok r
          ∧ readJson r Contact.fromJson = .error e)
  ∧ (svc.update c a ch = .error e ↔
      svc.config.send (updateRequest c a ch) = .error e
      ∨ ∃ r, svc.config.send (updateRequest c a ch) = .ok r
          ∧ readJson r UpdateContactResponse.fromJson = .error e)
  ∧ (svc.delete a x = .error e ↔ svc.config.send (deleteRequest a x) = .error e)
  ∧ (svc.list a = .error e ↔
      svc.config.send (listRequest a) = .error e
      ∨ ∃ r, svc.config.send (listRequest a) = .ok r
          ∧ readJson r ListContactResponse.fromJson = .error e) := by
  refine ⟨?_, ?_, ?_, ?_, ?_⟩
  · cases hs : svc.config.send (createRequest a d) with
    | error e₁ => simp [ContactsService.create, hs]
    | ok r =>
      cases hd : readJson r CreateContactResponse.fromJson with
      | error e₁ => simp [ContactsService.create, hs, hd]
      | ok v => simp [ContactsService.create, hs, hd]
  · cases hs : svc.config.send (getRequest c a) with
    | error e₁ => simp [ContactsService.get, hs]
    | ok r =>
      cases hd : readJson r Contact.fromJson with
      | error e₁ => simp [ContactsService.get, hs, hd]
      | ok v => simp [ContactsService.get, hs, hd]
  · cases hs : svc.config.send (updateRequest c a ch) with
    | error e₁ => simp [ContactsService.update, hs]
    | ok r =>
      cases hd : readJson r UpdateContactResponse.fromJson with
      | error e₁ => simp [ContactsService.update, hs, hd]
      | ok v => simp [ContactsService.update, hs, hd]
  · cases hs : svc.config.send (deleteRequest a x) with
    | error e₁ => simp [ContactsService.delete, AsRefStr.as_ref, hs]
    | ok r => simp [ContactsService.delete, AsRefStr.as_ref, hs]
  · cases hs : svc.config.send (listRequest a) with
    | error e₁ => simp [ContactsService.list, hs]
    | ok r =>
      cases hd : readJson r ListContactResponse.fromJson with
      | error e₁ => simp [ContactsService.list, hs, hd]
      | ok v => simp [ContactsService.list, hs, hd]

/-- C3: `create` issues a POST to `/audiences/{audience}/contacts` with the
serialized `ContactData` as JSON body (absent optionals omitted), and on
success returns exactly the `ContactId` carried in the response's uniquely
occurring `id` field; a response lacking a string `id` field makes `create`
fail with a decode error, as does a duplicated `id` key. -/
theorem create_posts_data_and_returns_response_id :
    (∀ (a : AudienceId) (d : ContactData),
        (createRequest a d).method = .POST
      ∧ (createRequest a d).path = "/audiences/" ++ a.val ++ "/contacts"
      ∧ (createRequest a d).body = some d.toJson)
  ∧ (∀ (svc₁ svc₂ : ContactsService) (a : AudienceId) (d : ContactData),
        svc₁.config.send (createRequest a d) = svc₂.config.send (createRequest a d) →
        svc₁.create a d = svc₂.create a d)
  ∧ (∀ (svc : ContactsService) (a : AudienceId) (d : ContactData)
        (fields : List (String × Json)) (s : String),
        svc.config.send (createRequest a d) = .ok (some (.obj fields)) →
        fields.filter (fun kv => kv.1 == "id") = [("id", .str s)] →
        svc.create a d = .ok ⟨s⟩)
  ∧ (∀ (svc : ContactsService) (a : AudienceId) (d : ContactData)
        (fields : List (String × Json)),
        svc.config.send (createRequest a d) = .ok (some (.obj fields)) →
        (∀ s : String, lookupField fields "id" ≠ some (.str s)) →
        ∃ msg, svc.create a d = .error (.decode msg))
  ∧ ContactsService.create
        ⟨⟨fun _ => .ok (some (.obj [("id", .str "a"), ("id", .str "b")]))⟩⟩
        ⟨"aud"⟩ (ContactData.new "x@y.z")
      = .error (.decode "duplicate field id") := by
  refine ⟨fun _ _ => ⟨rfl, rfl, rfl⟩, ?_, ?_, ?_, rfl⟩
  · intro svc₁ svc₂ a d h
    unfold ContactsService.create
    rw [h]
  · intro svc a d fields s hs huniq
    have hdec : visitSingleString "id" fields none = .ok s :=
      visitSingleString_unique "id" fields s huniq
    simp [ContactsService.create, hs, readJson, CreateContactResponse.fromJson, hdec]
  · intro svc a d fields hs hno
    obtain ⟨msg, hmsg⟩ := visitSingleString_no_string "id" fields hno
    exact ⟨msg, by
      simp [ContactsService.create, hs, readJson, CreateContactResponse.fromJson, hmsg]⟩

/-- C3 witness: a dispatcher answering `{"id": "cid_123"}` makes `create`
return exactly that id. -/
theorem create_posts_data_and_returns_response_id_witness :
    ContactsService.create ⟨⟨fun _ => .ok (some (.obj [("id", .str "cid_123")]))⟩⟩
      ⟨"aud"⟩ (ContactData.new "a@b.com") = .ok ⟨"cid_123"⟩ :=
  create_posts_data_and_returns_response_id.2.2.1
    ⟨⟨fun _ => .ok (some (.obj [("id", .str "cid_123")]))⟩⟩
    ⟨"aud"⟩ (ContactData.new "a@b.com") [("id", .str "cid_123")] "cid_123" rfl rfl

/-- C5: `list` issues a GET to `/audiences/{audience}/contacts`, decodes a
response object with a uniquely occurring `data` array, and returns that
array's contacts exactly as element-wise decoding yields them, in the
provider's order, with no local sorting or filtering; an empty `data` array
yields an empty list as a success, while a duplicated `data` key is a decode
error. -/
theorem list_gets_and_preserves_provider_order :
    (∀ a : AudienceId,
        (listRequest a).method = .GET
      ∧ (listRequest a).path = "/audiences/" ++ a.val ++ "/contacts"
      ∧ (listRequest a).body = none)
  ∧ (∀ (svc : ContactsService) (a : AudienceId)
        (fields : List (String × Json)) (elems : List Json),
        svc.config.send (listRequest a) = .ok (some (.obj fields)) →
        fields.filter (fun kv => kv.1 == "data") = [("data", .arr elems)] →
        svc.list a = elems.mapM Contact.fromJson)
  ∧ (∀ (svc : ContactsService) (a : AudienceId) (fields : List (String × Json)),
        svc.config.send (listRequest a) = .ok (some (.obj fields)) →
        fields.filter (fun kv => kv.1 == "data") = [("data", .arr [])] →
        svc.list a = .ok [])
  ∧ ContactsService.list
        ⟨⟨fun _ => .ok (some (.obj [("data", .arr []), ("data", .arr [])]))⟩⟩ ⟨"aud"⟩
      = .error (.decode "duplicate field data") := by
  have key : ∀ (svc : ContactsService) (a : AudienceId)
      (fields : List (String × Json)) (elems : List Json),
      svc.config.send (listRequest a) = .ok (some (.obj fields)) →
      fields.filter (fun kv => kv.1 == "data") = [("data", .arr elems)] →
      svc.list a = elems.mapM Contact.fromJson := by
    intro svc a fields elems hs hdata
    have hdec := listVisitMap_unique fields elems hdata
    cases hm : elems.mapM Contact.fromJson with
    | error e =>
      rw [hm] at hdec
      simp [ContactsService.list, hs, readJson, ListContactResponse.fromJson, hdec]
    | ok cs =>
      rw [hm] at hdec
      simp [ContactsService.list, hs, readJson, ListContactResponse.fromJson, hdec]
  refine ⟨fun _ => ⟨rfl, rfl, rfl⟩, key, ?_, rfl⟩
  intro svc a fields hs hdata
  rw [key svc a fields [] hs hdata]
  rfl

/-- C5 witness: a dispatcher answering `{"data": []}` makes `list` succeed
with the empty list. -/
theorem list_gets_and_preserves_provider_order_witness :
    ContactsService.list ⟨⟨fun _ => .ok (some (.obj [("data", .arr [])]))⟩⟩ ⟨"aud"⟩
      = .ok [] :=
  list_gets_and_preserves_provider_order.2.2.1
    ⟨⟨fun _ => .ok (some (.obj [("data", .arr [])]))⟩⟩ ⟨"aud"⟩
    [("data", .arr [])] rfl rfl

/-- C6: `update` issues a PATCH to `/audiences/{audience}/contacts/{contact}`
with the `ContactChanges` as JSON body, decodes the response as an object with
a uniquely occurring `id` field to confirm its shape, discards the decoded id,
and returns no data on success; a response without a decodable `id` field
(including one with a duplicated `id` key) makes `update` fail even though the
HTTP request succeeded. -/
theorem update_patches_confirms_shape_discards_id :
    (∀ (c : ContactId) (a : AudienceId) (ch : ContactChanges),
        (updateRequest c a ch).method = .PATCH
      ∧ (updateRequest c a ch).path = "/audiences/" ++ a.val ++ "/contacts/" ++ c.val
      ∧ (updateRequest c a ch).body = some ch.toJson)
  ∧ (∀ (svc : ContactsService) (c : ContactId) (a : AudienceId) (ch : ContactChanges)
        (fields : List (String × Json)) (s : String),
        svc.config.send (updateRequest c a ch) = .ok (some (.obj fields)) →
        fields.filter (fun kv => kv.1 == "id") = [("id", .str s)] →
        svc.update c a ch = .ok ())
  ∧ (∀ (svc : ContactsService) (c : ContactId) (a : AudienceId) (ch : ContactChanges)
        (r : Option Json) (e : Error),
        svc.config.send (updateRequest c a ch) = .ok r →
        readJson r UpdateContactResponse.fromJson = .error e →
        svc.update c a ch = .error e)
  ∧ ContactsService.update
        ⟨⟨fun _ => .ok (some (.obj [("id", .str "a"), ("id", .str "b")]))⟩⟩
        ⟨"cid"⟩ ⟨"aud"⟩ ContactChanges.new
      = .error (.decode "duplicate field id") := by
  refine ⟨fun _ _ _ => ⟨rfl, rfl, rfl⟩, ?_, ?_, rfl⟩
  · intro svc c a ch fields s hs huniq
    have hdec : visitSingleString "id" fields none = .ok s :=
      visitSingleString_unique "id" fields s huniq
    simp [ContactsService.update, hs, readJson, UpdateContactResponse.fromJson, hdec]
  · intro svc c a ch r e hs hd
    simp [ContactsService.update, hs, hd]

/-- C6 witness: a dispatcher answering `{"id": "cid_7"}` makes `update`
succeed with no data. -/
theorem update_patches_confirms_shape_discards_id_witness :
    ContactsService.update ⟨⟨fun _ => .ok (some (.obj [("id", .str "cid_7")]))⟩⟩
      ⟨"cid_7"⟩ ⟨"aud"⟩ ContactChanges.new = .ok () :=
  update_patches_confirms_shape_discards_id.2.1
    ⟨⟨fun _ => .ok (some (.obj [("id", .str "cid_7")]))⟩⟩
    ⟨"cid_7"⟩ ⟨"aud"⟩ ContactChanges.new [("id", .str "cid_7")] "cid_7" rfl rfl

/-- C7: `delete` is one function whose identifier parameter is generic over
any value convertible to a string view, so a `ContactId` and a raw email
string go through the same entry point; it issues a DELETE to
`/audiences/{audience}/contacts/{email_or_id}` with the identifier's string
form as the final path segment and returns no data on success. -/
theorem delete_is_generic_over_string_views :
    (∀ (T : Type) [AsRefStr T] (svc : ContactsService) (a : AudienceId) (xt : T),
        svc.delete a xt = svc.delete a (AsRefStr.as_ref xt))
  ∧ (∀ (svc : ContactsService) (a : AudienceId) (s : String),
        svc.delete a (ContactId.new s) = svc.delete a s)
  ∧ (∀ (T : Type) [AsRefStr T] (a : AudienceId) (xt : T),
        (deleteRequest a (AsRefStr.as_ref xt)).method = .DELETE
      ∧ (deleteRequest a (AsRefStr.as_ref xt)).path
          = "/audiences/" ++ a.val ++ "/contacts/" ++ AsRefStr.as_ref xt
      ∧ (deleteRequest a (AsRefStr.as_ref xt)).body = none)
  ∧ (∀ (svc : ContactsService) (a : AudienceId) (x : String) (r : Option Json),
        svc.config.send (deleteRequest a x) = .ok r →
        svc.delete a x = .ok ()) := by
  refine ⟨fun _ _ _ _ _ => rfl, fun _ _ _ => rfl, fun _ _ _ _ => ⟨rfl, rfl, rfl⟩, ?_⟩
  intro svc a x r hs
  simp [ContactsService.delete, AsRefStr.as_ref, hs]

/-- C7 witness: `delete` of a raw email string under a successful dispatcher
returns no data. -/
theorem delete_is_generic_over_string_views_witness :
    ContactsService.delete ⟨⟨fun _ => .ok (some .null)⟩⟩ ⟨"aud"⟩ "a@b.com" = .ok () :=
  delete_is_generic_over_string_views.2.2.2
    ⟨⟨fun _ => .ok (some .null)⟩⟩ ⟨"aud"⟩ "a@b.com" (some .null) rfl

/-- C9: `delete` never decodes or inspects the response body: whenever the
dispatcher reports success, `delete` succeeds regardless of the body, even one
that is not valid JSON — whereas the same bodyless success makes `update` fail
with a decode error. -/
theorem delete_ignores_response_body :
    (∀ (T : Type) [AsRefStr T] (svc : ContactsService) (a : AudienceId) (xt : T)
        (r : Option Json),
        svc.config.send (deleteRequest a (AsRefStr.as_ref xt)) = .ok r →
        svc.delete a xt = .ok ())
  ∧ (∀ (svc : ContactsService) (c : ContactId) (a : AudienceId) (ch : ContactChanges),
        svc.config.send (updateRequest c a ch) = .ok none →
        ∃ msg, svc.update c a ch = .error (.decode msg)) := by
  constructor
  · intro T inst svc a xt r hs
    simp [ContactsService.delete, hs]
  · intro svc c a ch hs
    exact ⟨"error decoding response body", by
      simp [ContactsService.update, hs, readJson]⟩

/-- C9 witness: a dispatcher succeeding with a body that is not valid JSON
still lets `delete` succeed. -/
theorem delete_ignores_response_body_witness :
    ContactsService.delete ⟨⟨fun _ => .ok none⟩⟩ ⟨"aud2"⟩ (ContactId.new "cid_9")
      = .ok () :=
  delete_ignores_response_body.1 ContactId
    ⟨⟨fun _ => .ok none⟩⟩ ⟨"aud2"⟩ (ContactId.new "cid_9") none rfl

end Resend
